import Mathlib

/-!
Shallow embedding of the module-generation schematic
(packages/schematics/angular/module/index.ts).

The transformation core (addDeclarationToNgModule, addRouteDeclarationToNgModule,
getRoutingModulePath, buildRoute and the default orchestrator) is translated
directly from the source.  External collaborators that live outside this file
in the repository (the workspace reader, the module resolver find-module, the
name parser, the TypeScript parser consumed through ast-utils, and the string
casing utilities) are modelled at the interface the spec gives them in
sections 4 and 6: they are either fields of an `Externals` record, quantified
over in the theorems, or concrete definitions whose doc comment starts with
"Modelled from the spec:".

File-store operations performed by the core are recorded in an explicit
effect trace, so that frame claims ("no file is read or mutated") are
statements about that trace.
-/

namespace NgModuleSchematic

/-- Single-quote character, used when synthesizing source text. -/
def sq : String := "\x27"

/-- Routing scope enum from the schematic schema (Root or Child). -/
inductive RoutingScope where
  | root
  | child
  deriving Repr, DecidableEq

/-- Options record of the module schematic (Schema as ModuleOptions).
Optional string fields are `Option String`; an absent value models
`undefined` in the source. -/
structure ModuleOptions where
  name : String
  path : Option String := none
  project : Option String := none
  module : Option String := none
  route : Option String := none
  routingScope : Option RoutingScope := none
  flat : Bool := false
  routing : Bool := false
  lintFix : Bool := false
  deriving Repr, DecidableEq

/-- JavaScript truthiness of an optional string: `undefined` and the empty
string are falsy, every other string is truthy. -/
def optTruthy : Option String → Bool
  | none => false
  | some s => !(s == "")

/-- JavaScript template interpolation of an optional string: `undefined`
interpolates as the text "undefined". -/
def optStr : Option String → String
  | none => "undefined"
  | some s => s

/-- Modelled from the spec: the name utility collaborator's "classify"
transform (section 6), producing an identifier-safe symbol name.  The
boolean argument says whether the next letter is capitalized. -/
def classifyChars : List Char → Bool → List Char
  | [], _ => []
  | c :: cs, cap =>
    if c = '-' ∨ c = '_' ∨ c = ' ' then classifyChars cs true
    else (if cap then c.toUpper else c) :: classifyChars cs false

/-- Modelled from the spec: "classify" on strings (capitalize the first
letter and letters after separators, dropping the separators). -/
def classify (s : String) : String := String.mk (classifyChars s.toList true)

/-- Modelled from the spec: the "dasherize" transform producing a hyphenated
file stem.  The boolean argument is true at the first character. -/
def dasherizeChars : List Char → Bool → List Char
  | [], _ => []
  | c :: cs, first =>
    if c = '_' ∨ c = ' ' then '-' :: dasherizeChars cs false
    else if c.isUpper then
      (if first then [c.toLower] else ['-', c.toLower]) ++ dasherizeChars cs false
    else c :: dasherizeChars cs false

/-- Modelled from the spec: "dasherize" on strings. -/
def dasherize (s : String) : String := String.mk (dasherizeChars s.toList true)

/-- Split a character list at every occurrence of the separator; an empty
input yields one empty segment, matching JavaScript split semantics. -/
def splitChars (sep : Char) : List Char → List (List Char)
  | [] => [[]]
  | c :: cs =>
    let rest := splitChars sep cs
    if c = sep then [] :: rest
    else match rest with
      | [] => [[c]]
      | r :: rs => (c :: r) :: rs

/-- JavaScript String.split with a single-character separator. -/
def splitOnChar (sep : Char) (s : String) : List String :=
  (splitChars sep s.toList).map String.mk

/-- Modelled from the spec: path normalization from the core path utility
(collapses empty segments and yields a leading slash). -/
def normalize (p : String) : String :=
  "/" ++ String.intercalate "/" ((splitOnChar '/' p).filter (fun seg => !(seg == "")))

/-- File store (the host Tree): a finite map from paths to file text,
represented as an association list. -/
structure Tree where
  files : List (String × String)
  deriving Repr, DecidableEq

/-- File-store read: `read(path) -> bytes | null` of spec section 6. -/
def Tree.read (t : Tree) (path : String) : Option String :=
  (t.files.find? (fun pf => pf.1 == path)).map (fun pf => pf.2)

/-- Text of the inserts registered at offset k, later registrations leftmost
(left-insertion semantics of spec section 4.5). -/
def insertsAt (ins : List (Nat × String)) (k : Nat) : String :=
  String.join (((ins.filter (fun c => c.1 == k)).reverse).map (fun c => c.2))

/-- Apply a batch of left-inserts to a text; offsets refer to the pre-edit
text (spec section 4.5). -/
def applyInserts (s : String) (ins : List (Nat × String)) : String :=
  String.join ((s.toList.enum).map (fun ci => insertsAt ins ci.1 ++ String.singleton ci.2))
    ++ insertsAt ins s.toList.length

/-- Commit of one update recorder: the staged inserts are merged into the
named file in a single rewrite. -/
def Tree.commit (t : Tree) (path : String) (ins : List (Nat × String)) : Tree :=
  ⟨t.files.map (fun pf => if pf.1 == path then (pf.1, applyInserts pf.2 ins) else pf)⟩

/-- File-store operations performed by the transformation core, in order. -/
inductive Effect where
  | read (path : String)
  | beginUpdate (path : String)
  | insertLeft (path : String) (pos : Nat) (text : String)
  | commitUpdate (path : String)
  deriving Repr, DecidableEq

/-- Path an effect touches. -/
def Effect.target : Effect → String
  | .read p => p
  | .beginUpdate p => p
  | .insertLeft p _ _ => p
  | .commitUpdate p => p

/-- Change objects returned by the ast utilities: either an InsertChange
(position and text to add) or some other change kind, which the core
filters out. -/
inductive Change where
  | insert (pos : Nat) (toAdd : String)
  | noChange
  deriving Repr, DecidableEq

/-- Project descriptor returned by the workspace collaborator. -/
structure WorkspaceProject where
  root : String
  deriving Repr, DecidableEq

/-- Modelled from the spec: the external collaborators of sections 4.1 and 6
(workspace reader, module resolver, name parser, relative-path helper, the
ast utility addImportToModule consuming the external parser, and the
route-table recognizer used by addRouteDeclarationToModule).  The theorems
quantify over this record, so they hold for every behavior of the
collaborators. -/
structure Externals where
  createDefaultPath : Tree → Option String → String
  findModuleFromOptions : Tree → ModuleOptions → Except String String
  parseName : String → String → String × String
  getProject : Tree → Option String → WorkspaceProject
  isProjectUsingIvy : Tree → WorkspaceProject → Bool
  buildRelativePath : String → String → String
  addImportToModule : String → String → String → String → List Change
  routeTableClose : String → Option Nat

/-- Import module path computed by addDeclarationToNgModule (source lines
49 to 54): normalize of /path/ plus the dasherized name directory (unless
flat) plus the dasherized name plus ".module". -/
def importModulePath (options : ModuleOptions) : String :=
  normalize ("/" ++ optStr options.path ++ "/"
    ++ (if options.flat then "" else dasherize options.name ++ "/")
    ++ dasherize options.name ++ ".module")

/-- Embedding of addDeclarationToNgModule (source lines 34 to 71): when the
module option is falsy the host is returned untouched; otherwise the module
file is read (SourceNotFound error when the read yields null), the import
changes are computed by the external ast utility, and the InsertChange
entries are staged and committed. -/
def addDeclarationToNgModule (ext : Externals) (options : ModuleOptions) (host : Tree) :
    List Effect × Except String Tree :=
  if optTruthy options.module = false then ([], .ok host)
  else
    let modulePath := optStr options.module
    match host.read modulePath with
    | none => ([Effect.read modulePath], .error ("File " ++ modulePath ++ " does not exist."))
    | some sourceText =>
      let relativePath := ext.buildRelativePath modulePath (importModulePath options)
      let changes := ext.addImportToModule sourceText modulePath
        (classify (options.name ++ "Module")) relativePath
      let inserts := changes.filterMap
        (fun c => match c with | Change.insert p t => some (p, t) | Change.noChange => none)
      ([Effect.read modulePath, Effect.beginUpdate modulePath]
          ++ inserts.map (fun pt => Effect.insertLeft modulePath pt.1 pt.2)
          ++ [Effect.commitUpdate modulePath],
        .ok (host.commit modulePath inserts))

/-- Embedding of buildRoute (source lines 127 to 139): one route object
literal whose loadChildren text is the dynamic-import shape when ivy is
enabled and the string reference shape otherwise. -/
def buildRoute (options : ModuleOptions) (ivyEnabled : Bool) : String :=
  let modulePath := "./" ++ options.name ++ "/" ++ options.name ++ ".module"
  let moduleName := classify options.name ++ "Module"
  let loadChildren :=
    if ivyEnabled then
      "() => import(" ++ sq ++ modulePath ++ sq ++ ").then(m => m." ++ moduleName ++ ")"
    else
      sq ++ modulePath ++ "#" ++ moduleName ++ sq
  "\x7b path: " ++ sq ++ optStr options.route ++ sq ++ ", loadChildren: " ++ loadChildren ++ " \x7d"

/-- Modelled from the spec: addRouteDeclarationToModule of the ast utilities
(spec section 4.3), which is not under src.  Given the recognizer for the
route-table array literal, it returns the insertion before the closing
bracket, and fails with RouteHostNotFound when no route-table declaration is
recognized. -/
def addRouteDeclarationToModule (routeTableClose : String → Option Nat)
    (sourceText : String) (routeText : String) : Except String (Nat × String) :=
  match routeTableClose sourceText with
  | some pos => .ok (pos, routeText)
  | none => .error ("Couldn" ++ sq ++ "t find the module nor its routing module.")

/-- Target path selection of addRouteDeclarationToNgModule (source lines
86 to 91): the routing module path when truthy, else the module option. -/
def routeTargetPath (options : ModuleOptions) (routingModulePath : Option String) : String :=
  if optTruthy routingModulePath then optStr routingModulePath else optStr options.module

/-- Embedding of addRouteDeclarationToNgModule (source lines 73 to 112):
no-op when route is falsy; configuration error when route is truthy and
module falsy; otherwise read the routing sibling (or the module itself),
failing when the read yields null, and stage plus commit the single route
insert computed from buildRoute. -/
def addRouteDeclarationToNgModule (ext : Externals) (options : ModuleOptions)
    (project : WorkspaceProject) (routingModulePath : Option String) (host : Tree) :
    List Effect × Except String Tree :=
  if optTruthy options.route = false then ([], .ok host)
  else if optTruthy options.route && !(optTruthy options.module) then
    ([], .error "Module option required when creating a lazy loaded routing module.")
  else
    let path := routeTargetPath options routingModulePath
    match host.read path with
    | none => ([Effect.read path], .error ("Couldn" ++ sq ++ "t find the module nor its routing module."))
    | some sourceText =>
      let ivyEnabled := ext.isProjectUsingIvy host project
      match addRouteDeclarationToModule ext.routeTableClose sourceText
          (buildRoute options ivyEnabled) with
      | .error e => ([Effect.read path], .error e)
      | .ok pt =>
        ([Effect.read path, Effect.beginUpdate path, Effect.insertLeft path pt.1 pt.2,
            Effect.commitUpdate path],
          .ok (host.commit path [pt]))

/-- Routing sibling candidate name of source line 117: the text of the whole
module path before its first dot, plus the "-routing" suffix. -/
def codeSiblingCandidate (modulePath : String) : String :=
  ((splitOnChar '.' modulePath).headD "") ++ "-routing"

/-- Embedding of getRoutingModulePath (source lines 114 to 125): the sibling
candidate name is the text before the first dot of the whole module path plus
"-routing"; it is resolved with the same findModuleFromOptions lookup, and
any resolver failure is swallowed, yielding none. -/
def getRoutingModulePath (ext : Externals) (host : Tree) (options : ModuleOptions) :
    Option String :=
  let modulePath := optStr options.module
  let routingModuleName := codeSiblingCandidate modulePath
  match ext.findModuleFromOptions host { options with module := some routingModuleName } with
  | .ok p => some p
  | .error _ => none

/-- Path-defaulting step of the default rule (source lines 143 to 145):
when path is undefined it is set from the workspace default. -/
def defaultedOptions (ext : Externals) (options0 : ModuleOptions) (host : Tree) :
    ModuleOptions :=
  match options0.path with
  | none => { options0 with path := some (ext.createDefaultPath host options0.project) }
  | some _ => options0

/-- Module-resolution step of the default rule (source lines 147 to 149):
a truthy module option is replaced by the resolver result; resolver failure
propagates. -/
def resolvedModuleOptions (ext : Externals) (host : Tree) (o1 : ModuleOptions) :
    Except String ModuleOptions :=
  if optTruthy o1.module then
    match ext.findModuleFromOptions host o1 with
    | Except.ok p => Except.ok { o1 with module := some p }
    | Except.error e => Except.error e
  else Except.ok o1

/-- Resolution phase of the default rule (source lines 143 to 160): default
the path, resolve a truthy module option, re-parse name and path, and when
lazy routing is active force routingScope to Child and look up the routing
sibling.  The returned record is the options value the rest of the run
observes. -/
def resolveOptions (ext : Externals) (options0 : ModuleOptions) (host : Tree) :
    Except String (ModuleOptions × Option String) :=
  match resolvedModuleOptions ext host (defaultedOptions ext options0 host) with
  | .error e => .error e
  | .ok o2 =>
    let pn := ext.parseName (optStr o2.path) o2.name
    let o3 := { o2 with name := pn.1, path := some pn.2 }
    if optTruthy o3.route && optTruthy o3.module then
      let o4 := { o3 with routingScope := some RoutingScope.child }
      .ok (o4, getRoutingModulePath ext host o4)
    else
      .ok (o3, none)

/-- Embedding of the default rule (source lines 141 to 189): run the
resolution phase, then the chain.  The import step is the first chain entry
and is replaced by noop when lazy routing is active; the route step runs
next.  The remaining chain entries (the companion component schematic, the
template merge and the optional lint fix) are the external scaffolding and
lint collaborators, out of scope per spec section 1, and are modelled as the
identity on the core file store. -/
def moduleDefault (ext : Externals) (options0 : ModuleOptions) (host : Tree) :
    List Effect × Except String Tree :=
  match resolveOptions ext options0 host with
  | .error e => ([], .error e)
  | .ok (options, routingModulePath) =>
    let isLazy := optTruthy options.route && optTruthy options.module
    let project := ext.getProject host options.project
    match (if isLazy then ([], .ok host)
        else addDeclarationToNgModule ext options host : List Effect × Except String Tree) with
    | (t1, .error e) => (t1, .error e)
    | (t1, .ok h1) =>
      match addRouteDeclarationToNgModule ext options project routingModulePath h1 with
      | (t2, r2) => (t1 ++ t2, r2)

/-- Sample collaborators used to exercise the embedding at concrete inputs:
the resolver accepts a module identifier exactly when the host holds a file
of that name, the name parser echoes its inputs, and the route-table
recognizer reports the last position of any non-empty file. -/
def sampleExt : Externals where
  createDefaultPath := fun _ _ => "src/app"
  findModuleFromOptions := fun host o =>
    match host.read (optStr o.module) with
    | some _ => Except.ok (optStr o.module)
    | none => Except.error ("Specified module " ++ optStr o.module ++ " does not exist.")
  parseName := fun p n => (n, p)
  getProject := fun _ _ => ⟨"demo-root"⟩
  isProjectUsingIvy := fun _ _ => true
  buildRelativePath := fun _ q => q
  addImportToModule := fun _ _ nm rel =>
    [Change.insert 0 ("import \x7b " ++ nm ++ " \x7d from " ++ sq ++ rel ++ sq ++ ";")]
  routeTableClose := fun s => if s.length == 0 then none else some (s.length - 1)

/-- Sample collaborators whose module resolver echoes back the requested
module identifier, exposing which candidate the lookup was given. -/
def echoExt : Externals where
  createDefaultPath := fun _ _ => "src/app"
  findModuleFromOptions := fun _ o => Except.ok (optStr o.module)
  parseName := fun p n => (n, p)
  getProject := fun _ _ => ⟨"demo-root"⟩
  isProjectUsingIvy := fun _ _ => false
  buildRelativePath := fun _ q => q
  addImportToModule := fun _ _ _ _ => []
  routeTableClose := fun _ => none

/-- Host holding one module descriptor with a route table. -/
def hostA : Tree := ⟨[("app.module.ts", "const routes = [];")]⟩

/-- Host holding one module descriptor whose text has no route table. -/
def hostB : Tree := ⟨[("m.ts", "")]⟩

/-- Empty host. -/
def hostEmpty : Tree := ⟨[]⟩

/-- Lazy-generation options: name, path, project, module and route all set. -/
def optsLazy : ModuleOptions :=
  { name := "widget", path := some "src/app", project := some "demo",
    module := some "app.module.ts", route := some "widgets" }

/-- Value of optsLazy after the resolution phase under sampleExt and hostA:
only routingScope changes (forced to Child). -/
def optsLazyResolved : ModuleOptions :=
  { optsLazy with routingScope := some RoutingScope.child }

/-- Import-only options: module set, no route. -/
def optsImport : ModuleOptions :=
  { name := "widget", path := some "src/app", module := some "app.module.ts" }

/-- Options whose resolved module path has a dot inside a directory name. -/
def optsDotDir : ModuleOptions :=
  { name := "foo", path := some "src/app", module := some "/my.dir/foo.module.ts",
    route := some "foos" }

/-- Options with route present but empty, module unset. -/
def optsEmptyRoute : ModuleOptions :=
  { name := "widget", path := some "src/app", project := some "demo", route := some "" }

/-- Derivation of the routing-sibling candidate as the claim words it:
strip everything from the first dot of the module path's base name, keeping
the directory part, and append "-routing". -/
def claimSiblingCandidate (modulePath : String) : String :=
  let segs := splitOnChar '/' modulePath
  let dir := segs.dropLast
  let base := segs.getLastD ""
  String.intercalate "/" (dir ++ [(((splitOnChar '.' base).headD "") ++ "-routing")])

/-- Absence of a recognizable route-table declaration at path p: the file is
unreadable, or the recognizer finds no route-table array literal in it. -/
def noRouteTable (ext : Externals) (host : Tree) (p : String) : Prop :=
  match host.read p with
  | none => True
  | some txt => ext.routeTableClose txt = none

/-- C1: for options with route set, buildRoute synthesizes one object
literal of the form "path: route, loadChildren: loader" in braces; with the
ivy capability the loader is the dynamic-import shape, without it the string
reference shape, and the two outputs share prefix and suffix, differing only
in the loader substring. -/
theorem C1_buildRoute_shapes (options : ModuleOptions) (r : String)
    (hr : options.route = some r) :
    ∃ pre post : String,
      pre = "\x7b path: " ++ sq ++ r ++ sq ++ ", loadChildren: " ∧
      post = " \x7d" ∧
      buildRoute options true =
        pre ++ ("() => import(" ++ sq ++ ("./" ++ options.name ++ "/" ++ options.name ++ ".module")
          ++ sq ++ ").then(m => m." ++ (classify options.name ++ "Module") ++ ")") ++ post ∧
      buildRoute options false =
        pre ++ (sq ++ ("./" ++ options.name ++ "/" ++ options.name ++ ".module") ++ "#"
          ++ (classify options.name ++ "Module") ++ sq) ++ post := by
  refine ⟨_, _, rfl, rfl, ?_, ?_⟩ <;> simp [buildRoute, hr, optStr]

/-- Witness for C1 at name widget, route widgets. -/
theorem C1_witness :
    ∃ pre post : String,
      pre = "\x7b path: " ++ sq ++ "widgets" ++ sq ++ ", loadChildren: " ∧
      post = " \x7d" ∧
      buildRoute { name := "widget", route := some "widgets" } true =
        pre ++ ("() => import(" ++ sq ++ ("./" ++ "widget" ++ "/" ++ "widget" ++ ".module")
          ++ sq ++ ").then(m => m." ++ (classify "widget" ++ "Module") ++ ")") ++ post ∧
      buildRoute { name := "widget", route := some "widgets" } false =
        pre ++ (sq ++ ("./" ++ "widget" ++ "/" ++ "widget" ++ ".module") ++ "#"
          ++ (classify "widget" ++ "Module") ++ sq) ++ post :=
  C1_buildRoute_shapes { name := "widget", route := some "widgets" } "widgets" rfl

/-- C9: when the module option is undefined, the import-addition step
returns the host unchanged and its effect trace is empty: no read, no begun
update, no staged edit. -/
theorem C9_addDeclaration_noop (ext : Externals) (options : ModuleOptions) (host : Tree)
    (h : options.module = none) :
    addDeclarationToNgModule ext options host = ([], Except.ok host) := by
  simp [addDeclarationToNgModule, h, optTruthy]

/-- Witness for C9 at a concrete record without module. -/
theorem C9_witness :
    addDeclarationToNgModule sampleExt { name := "widget" } hostA = ([], Except.ok hostA) :=
  C9_addDeclaration_noop sampleExt { name := "widget" } hostA rfl

/-- C7: with a truthy module option the import step reads the module path;
when the read yields null it fails with the message "File modulePath does
not exist." and its trace is the read alone (no staged edit); when the read
succeeds it stages the import insertion (begin update, inserts, commit) on
that path and succeeds. -/
theorem C7_addDeclaration_sourceNotFound (ext : Externals) (options : ModuleOptions)
    (host : Tree) (hm : optTruthy options.module = true) :
    (host.read (optStr options.module) = none →
      addDeclarationToNgModule ext options host =
        ([Effect.read (optStr options.module)],
          Except.error ("File " ++ optStr options.module ++ " does not exist."))) ∧
    (∀ txt, host.read (optStr options.module) = some txt →
      ∃ inserts : List (Nat × String),
        addDeclarationToNgModule ext options host =
          ([Effect.read (optStr options.module), Effect.beginUpdate (optStr options.module)]
              ++ inserts.map (fun pt => Effect.insertLeft (optStr options.module) pt.1 pt.2)
              ++ [Effect.commitUpdate (optStr options.module)],
            Except.ok (host.commit (optStr options.module) inserts))) := by
  constructor
  · intro hread
    simp [addDeclarationToNgModule, hm, hread]
  · intro txt hread
    refine ⟨(ext.addImportToModule txt (optStr options.module)
        (classify (options.name ++ "Module"))
        (ext.buildRelativePath (optStr options.module) (importModulePath options))).filterMap
        (fun c => match c with
          | Change.insert p t => some (p, t)
          | Change.noChange => none), ?_⟩
    simp [addDeclarationToNgModule, hm, hread]

/-- Witness for C7: reading a missing module path fails with the
SourceNotFound message and only a read in the trace. -/
theorem C7_witness :
    addDeclarationToNgModule sampleExt optsImport hostEmpty =
      ([Effect.read (optStr optsImport.module)],
        Except.error ("File " ++ optStr optsImport.module ++ " does not exist.")) :=
  (C7_addDeclaration_sourceNotFound sampleExt optsImport hostEmpty (by decide)).1 (by decide)

/-- C4 counterexample: for the resolved module path "/my.dir/foo.module.ts"
the code truncates at the first dot of the whole path and derives the
candidate "/my-routing", while the claim's base-name derivation would give
"/my.dir/foo-routing". -/
theorem C4_counterexample :
    getRoutingModulePath echoExt hostEmpty optsDotDir = some "/my-routing" ∧
    claimSiblingCandidate "/my.dir/foo.module.ts" = "/my.dir/foo-routing" ∧
    ("/my-routing" : String) ≠ "/my.dir/foo-routing" := by
  refine ⟨rfl, rfl, ?_⟩
  decide

/-- C4 amended: the sibling candidate is derived by truncating the whole
resolved module path at its first dot (not just the base name) and appending
"-routing", and is resolved with the same findModuleFromOptions lookup used
for an explicit module option; for module path "foo.module.ts" the derived
lookup target is "foo-routing". -/
theorem C4_sibling_derivation (ext : Externals) (host : Tree) (options : ModuleOptions) :
    getRoutingModulePath ext host options =
      (match ext.findModuleFromOptions host
          { options with module := some (codeSiblingCandidate (optStr options.module)) } with
        | Except.ok p => some p
        | Except.error _ => none) ∧
    codeSiblingCandidate "foo.module.ts" = "foo-routing" := by
  refine ⟨rfl, ?_⟩
  decide

/-- Frame of the path-defaulting step: every field except path is kept. -/
theorem defaultedOptions_fields (ext : Externals) (options0 : ModuleOptions) (host : Tree) :
    (defaultedOptions ext options0 host).name = options0.name ∧
    (defaultedOptions ext options0 host).project = options0.project ∧
    (defaultedOptions ext options0 host).module = options0.module ∧
    (defaultedOptions ext options0 host).route = options0.route ∧
    (defaultedOptions ext options0 host).routingScope = options0.routingScope ∧
    (defaultedOptions ext options0 host).flat = options0.flat ∧
    (defaultedOptions ext options0 host).routing = options0.routing ∧
    (defaultedOptions ext options0 host).lintFix = options0.lintFix := by
  unfold defaultedOptions
  cases hp : options0.path <;> simp

/-- Frame of the module-resolution step: every field except module is kept. -/
theorem resolvedModuleOptions_fields (ext : Externals) (host : Tree) (o1 o2 : ModuleOptions)
    (h : resolvedModuleOptions ext host o1 = Except.ok o2) :
    o2.name = o1.name ∧ o2.path = o1.path ∧ o2.project = o1.project ∧
    o2.route = o1.route ∧ o2.routingScope = o1.routingScope ∧
    o2.flat = o1.flat ∧ o2.routing = o1.routing ∧ o2.lintFix = o1.lintFix := by
  unfold resolvedModuleOptions at h
  split at h
  · cases hf : ext.findModuleFromOptions host o1 <;> rw [hf] at h
    · simp at h
    · injection h with h
      subst h
      simp
  · injection h with h
    subst h
    simp

/-- Every file-store effect of the route step touches the selected target
path: the routing sibling when truthy, else the module option. -/
theorem addRoute_effects_on_target (ext : Externals) (options : ModuleOptions)
    (project : WorkspaceProject) (rmp : Option String) (host : Tree)
    (hr : optTruthy options.route = true) (hm : optTruthy options.module = true) :
    ((addRouteDeclarationToNgModule ext options project rmp host).1.all
      (fun eff => eff.target == routeTargetPath options rmp)) = true := by
  unfold addRouteDeclarationToNgModule
  simp only [hr, hm, Bool.not_true, Bool.and_false]
  cases hread : host.read (routeTargetPath options rmp) with
  | none => simp [hread, Effect.target]
  | some txt =>
    cases hclose : ext.routeTableClose txt with
    | none => simp [hread, hclose, addRouteDeclarationToModule, Effect.target]
    | some pos => simp [hread, hclose, addRouteDeclarationToModule, Effect.target]

/-- C5: failure of the routing-sibling lookup is never a run-level error:
when the resolver errors on the derived sibling candidate the lookup yields
none; and when lazy routing is active the route step targets the sibling
path if one resolved and the main module descriptor otherwise — every
file-store effect of the step touches exactly that target. -/
theorem C5_sibling_failure_nonfatal (ext : Externals) (host : Tree)
    (options : ModuleOptions) (project : WorkspaceProject) (rmp : Option String)
    (hr : optTruthy options.route = true) (hm : optTruthy options.module = true) :
    ((∃ e, ext.findModuleFromOptions host
        { options with module := some (codeSiblingCandidate (optStr options.module)) } =
          Except.error e) →
      getRoutingModulePath ext host options = none) ∧
    (optTruthy rmp = false →
      ((addRouteDeclarationToNgModule ext options project rmp host).1.all
        (fun eff => eff.target == optStr options.module)) = true) ∧
    (∀ p, rmp = some p → optTruthy rmp = true →
      ((addRouteDeclarationToNgModule ext options project rmp host).1.all
        (fun eff => eff.target == p)) = true) := by
  refine ⟨?_, ?_, ?_⟩
  · rintro ⟨e, he⟩
    simp [getRoutingModulePath, codeSiblingCandidate] at he ⊢
    rw [he]
  · intro hf
    have h := addRoute_effects_on_target ext options project rmp host hr hm
    rw [routeTargetPath, hf] at h
    simpa using h
  · intro p hp ht
    have h := addRoute_effects_on_target ext options project rmp host hr hm
    rw [routeTargetPath, ht] at h
    subst hp
    simpa [optStr] using h

/-- Witness for C5: under sampleExt the sibling lookup for optsLazyResolved
fails (there is no app-routing file), is swallowed, and the route step
touches only the main module descriptor. -/
theorem C5_witness :
    getRoutingModulePath sampleExt hostA optsLazyResolved = none ∧
    ((addRouteDeclarationToNgModule sampleExt optsLazyResolved ⟨"demo-root"⟩ none hostA).1.all
      (fun eff => eff.target == optStr optsLazyResolved.module)) = true :=
  ⟨(C5_sibling_failure_nonfatal sampleExt hostA optsLazyResolved ⟨"demo-root"⟩ none
      (by decide) (by decide)).1 ⟨_, rfl⟩,
    (C5_sibling_failure_nonfatal sampleExt hostA optsLazyResolved ⟨"demo-root"⟩ none
      (by decide) (by decide)).2.1 (by decide)⟩

/-- With lazy routing active, when the selected target holds no recognizable
route table (or cannot be read) the route step fails with the
RouteHostNotFound message. -/
theorem addRoute_fails_on_target (ext : Externals) (options : ModuleOptions)
    (project : WorkspaceProject) (rmp : Option String) (host : Tree)
    (hr : optTruthy options.route = true) (hm : optTruthy options.module = true)
    (hno : noRouteTable ext host (routeTargetPath options rmp)) :
    (addRouteDeclarationToNgModule ext options project rmp host).2 =
      Except.error ("Couldn" ++ sq ++ "t find the module nor its routing module.") := by
  unfold addRouteDeclarationToNgModule
  simp only [hr, hm, Bool.not_true, Bool.and_false]
  unfold noRouteTable at hno
  cases hread : host.read (routeTargetPath options rmp) with
  | none => simp [hread]
  | some txt =>
    rw [hread] at hno
    simp [hread, addRouteDeclarationToModule, hno]

/-- C6: when a route insertion is requested (route and module truthy) and
neither the resolved routing sibling nor the main module descriptor holds a
recognizable route-table declaration, the route step fails fatally with the
RouteHostNotFound message (could not find the module nor its routing
module). -/
theorem C6_routeHostNotFound (ext : Externals) (options : ModuleOptions)
    (project : WorkspaceProject) (rmp : Option String) (host : Tree)
    (hr : optTruthy options.route = true) (hm : optTruthy options.module = true)
    (hsib : ∀ p, rmp = some p → noRouteTable ext host p)
    (hmain : noRouteTable ext host (optStr options.module)) :
    (addRouteDeclarationToNgModule ext options project rmp host).2 =
      Except.error ("Couldn" ++ sq ++ "t find the module nor its routing module.") := by
  apply addRoute_fails_on_target ext options project rmp host hr hm
  unfold routeTargetPath
  cases rmp with
  | none => simpa [optTruthy] using hmain
  | some p =>
    by_cases hp : p = ""
    · subst hp
      simpa [optTruthy] using hmain
    · have hs := hsib p rfl
      simpa [optTruthy, hp] using hs

/-- Options for the C6 witness: module and route set, targeting hostB. -/
def optsC6 : ModuleOptions := { name := "m", module := some "m.ts", route := some "r" }

/-- Witness for C6: hostB's only file is readable but holds no route table,
and no sibling resolved, so the route step fails with RouteHostNotFound. -/
theorem C6_witness :
    (addRouteDeclarationToNgModule sampleExt optsC6 ⟨"demo-root"⟩ none hostB).2 =
      Except.error ("Couldn" ++ sq ++ "t find the module nor its routing module.") :=
  C6_routeHostNotFound sampleExt optsC6 ⟨"demo-root"⟩ none hostB (by decide) (by decide)
    (fun p hp => nomatch hp) (by rfl)

/-- C3: when lazy routing is active the import-addition step is skipped
entirely: the whole run equals the route-addition step alone on the
unchanged host, so the generated unit is registered via the route entry only
and never also imported directly into the module descriptor. -/
theorem C3_lazy_skips_import (ext : Externals) (options0 : ModuleOptions) (host : Tree)
    (o : ModuleOptions) (rmp : Option String)
    (h : resolveOptions ext options0 host = Except.ok (o, rmp))
    (hl : (optTruthy o.route && optTruthy o.module) = true) :
    moduleDefault ext options0 host =
      addRouteDeclarationToNgModule ext o (ext.getProject host o.project) rmp host := by
  unfold moduleDefault
  rw [h]
  simp only [hl]
  rcases haddr : addRouteDeclarationToNgModule ext o (ext.getProject host o.project) rmp host
    with ⟨t2, r2⟩
  simp [haddr]

/-- Witness for C3 at the concrete lazy scenario. -/
theorem C3_witness :
    moduleDefault sampleExt optsLazy hostA =
      addRouteDeclarationToNgModule sampleExt optsLazyResolved
        (sampleExt.getProject hostA optsLazyResolved.project) none hostA :=
  C3_lazy_skips_import sampleExt optsLazy hostA optsLazyResolved none (by rfl) (by decide)

/-- C2 amended: when route is set to a non-empty string and module is unset,
the run fails with the configuration error "Module option required when
creating a lazy loaded routing module." and its effect trace is empty: no
file is read or mutated before the error. -/
theorem C2_routeWithoutModule_fails (ext : Externals) (options0 : ModuleOptions) (host : Tree)
    (hr : optTruthy options0.route = true) (hm : options0.module = none) :
    moduleDefault ext options0 host =
      ([], Except.error "Module option required when creating a lazy loaded routing module.") := by
  obtain ⟨h1n, h1pr, h1m, h1r, h1rs, h1f, h1rt, h1l⟩ := defaultedOptions_fields ext options0 host
  have hm1 : (defaultedOptions ext options0 host).module = none := h1m.trans hm
  have hr1 : optTruthy (defaultedOptions ext options0 host).route = true := by
    rw [h1r]
    exact hr
  have hres : resolvedModuleOptions ext host (defaultedOptions ext options0 host) =
      Except.ok (defaultedOptions ext options0 host) := by
    unfold resolvedModuleOptions
    rw [hm1]
    simp [optTruthy]
  unfold moduleDefault resolveOptions
  rw [hres]
  have hmf : optTruthy (none : Option String) = false := rfl
  simp [addDeclarationToNgModule, addRouteDeclarationToNgModule, hm1, hr1, hmf]

/-- C2 counterexample: with route present but equal to the empty string and
module unset, the run does not fail: it completes, leaves the host untouched
and performs no file-store effect. -/
theorem C2_counterexample :
    moduleDefault sampleExt optsEmptyRoute hostEmpty = ([], Except.ok hostEmpty) := rfl

/-- Witness for C2 at a concrete record with a non-empty route and no
module. -/
theorem C2_witness :
    moduleDefault sampleExt { name := "widget", path := some "src/app", route := some "widgets" }
        hostEmpty =
      ([], Except.error "Module option required when creating a lazy loaded routing module.") :=
  C2_routeWithoutModule_fails sampleExt
    { name := "widget", path := some "src/app", route := some "widgets" } hostEmpty
    (by decide) rfl

/-- C8 counterexample: the options record is not immutable during the run:
the resolution phase of this concrete run forces routingScope to Child,
while the input record had it unset. -/
theorem C8_counterexample :
    (match resolveOptions echoExt optsLazy hostEmpty with
      | Except.ok (oa, _) => oa.routingScope
      | Except.error _ => none) = some RoutingScope.child ∧
    optsLazy.routingScope = none := ⟨rfl, rfl⟩

/-- C8 amended: the orchestrator reassigns only the fields path, module,
name and routingScope, and only during the resolution phase; the fields
project, route, flat, routing and lintFix are never modified during a run. -/
theorem C8_options_frame (ext : Externals) (options0 : ModuleOptions) (host : Tree)
    (o : ModuleOptions) (rmp : Option String)
    (h : resolveOptions ext options0 host = Except.ok (o, rmp)) :
    o.project = options0.project ∧ o.route = options0.route ∧ o.flat = options0.flat ∧
    o.routing = options0.routing ∧ o.lintFix = options0.lintFix := by
  unfold resolveOptions at h
  cases hres : resolvedModuleOptions ext host (defaultedOptions ext options0 host) with
  | error e =>
    rw [hres] at h
    simp at h
  | ok o2 =>
    rw [hres] at h
    obtain ⟨h2n, h2p, h2pr, h2r, h2rs, h2f, h2rt, h2l⟩ :=
      resolvedModuleOptions_fields ext host _ o2 hres
    obtain ⟨h1n, h1pr, h1m, h1r, h1rs, h1f, h1rt, h1l⟩ := defaultedOptions_fields ext options0 host
    simp only [] at h
    split at h <;>
    · simp only [Except.ok.injEq, Prod.mk.injEq] at h
      obtain ⟨ho, hrmp⟩ := h
      subst ho
      exact ⟨by simp [h2pr, h1pr], by simp [h2r, h1r], by simp [h2f, h1f],
        by simp [h2rt, h1rt], by simp [h2l, h1l]⟩

/-- Witness for C8 amended at the concrete lazy scenario. -/
theorem C8_witness :
    optsLazyResolved.project = optsLazy.project ∧ optsLazyResolved.route = optsLazy.route ∧
    optsLazyResolved.flat = optsLazy.flat ∧ optsLazyResolved.routing = optsLazy.routing ∧
    optsLazyResolved.lintFix = optsLazy.lintFix :=
  C8_options_frame sampleExt optsLazy hostA optsLazyResolved none (by rfl)

/-- Options differing from optsPathB only in the flat flag being false. -/
def optsFlatA : ModuleOptions := { name := "widget", path := some "src/app", flat := false }

/-- Options equal to optsFlatA except flat is true. -/
def optsFlatB : ModuleOptions := { name := "widget", path := some "src/app", flat := true }

/-- Options equal to optsFlatA except for the path field. -/
def optsPathB : ModuleOptions := { name := "widget", path := some "other/dir", flat := false }

/-- C10: the module path in the synthesized route entry is computed from the
name alone: any two options records with the same name and route give
identical buildRoute text for either capability value — in particular
records differing only in path or flat — while the import path of the
import-addition step does depend on both path and flat. -/
theorem C10_route_ignores_path_flat :
    (∀ o1 o2 : ModuleOptions, ∀ ivy : Bool, o1.name = o2.name → o1.route = o2.route →
      buildRoute o1 ivy = buildRoute o2 ivy) ∧
    importModulePath optsFlatA ≠ importModulePath optsFlatB ∧
    importModulePath optsFlatA ≠ importModulePath optsPathB := by
  refine ⟨?_, ?_, ?_⟩
  · intro o1 o2 ivy hn hrt
    simp [buildRoute, hn, hrt]
  · decide
  · decide

/-- Witness for C10: two records differing only in flat (and only in path)
synthesize the same route text. -/
theorem C10_witness :
    buildRoute optsFlatA true = buildRoute optsFlatB true ∧
    buildRoute optsFlatA false = buildRoute optsPathB false :=
  ⟨C10_route_ignores_path_flat.1 optsFlatA optsFlatB true rfl rfl,
    C10_route_ignores_path_flat.1 optsFlatA optsPathB false rfl rfl⟩

end NgModuleSchematic
